import Mathlib

/-!
Shallow embedding of the transaction state machine of `casualjim/dat`,
package `sqlx-runner` (files `tx.go` and `init.go`).

The Go `Tx` wraps one underlying `sqlx.Tx` driver handle.  Every mutating
operation runs under the entity's exclusive mutex, so each operation is
embedded as a pure function on the `Tx` record.  The underlying driver is
external: whether its `Commit`/`Rollback` succeeds is an input (`drvOk`),
and each operation reports the list of real driver calls it issued
(`calls`), so that "how many calls reached the underlying handle" is
observable.  `logger.Fatal` / `panic` (process termination in strict mode)
is the `Outcome.fatal` result; a run of operations stops there.
-/

namespace Dat

/-- The four transaction states of `tx.go`: `txPending`, `txCommitted`,
`txRollbacked`, `txErred`. -/
inductive TxState where
  | pending
  | committed
  | rollbacked
  | erred
deriving DecidableEq, Repr

/-- A real call issued to the underlying driver handle. -/
inductive DrvOp where
  | commit
  | rollback
deriving DecidableEq, Repr

/-- Errors returned by the Go operations, one constructor per distinct
error produced in `tx.go` (`ErrTxRollbacked`, the two `errors.New` strings
in `Commit`, the one in `Rollback`, and the surfaced driver errors). -/
inductive TxErr where
  | txRollbacked
  | alreadyCommitted
  | alreadyRolledBack
  | cannotRollbackCommitted
  | commitFailed
  | rollbackFailed
  | autoCommitFailed
  | autoRollbackFailed
deriving DecidableEq, Repr

/-- Result of one operation: `ok` (nil error), an error return, or
`fatal` for `logger.Fatal` / watchdog `panic` (process termination). -/
inductive Outcome where
  | ok
  | err (e : TxErr)
  | fatal
deriving DecidableEq, Repr

/-- The `Tx` struct of `tx.go`: sticky `IsRollbacked` flag, current
`state`, and the `stateStack` (top of stack at the end of the list, as in
the Go slice). The mutex and the embedded handles carry no state that the
claims are about. -/
structure Tx where
  isRollbacked : Bool
  state : TxState
  stateStack : List TxState
deriving DecidableEq, Repr

/-- Result of one operation on a `Tx`: the updated entity, the real
driver calls issued during the operation, and the outcome. -/
structure StepResult where
  tx : Tx
  calls : List DrvOp
  out : Outcome
deriving DecidableEq, Repr

/-- `WrapSqlxTx`: the freshly wrapped root transaction
(`state = txPending`, empty stack, flag unset). -/
def wrapSqlxTx : Tx := ⟨false, .pending, []⟩

/-- `WrapSqlxTx` arms the leak watchdog (`time.AfterFunc`) iff
`dat.Strict` is set. -/
def watchdogArmed (strict : Bool) : Bool := strict

/-- The body of the watchdog callback: the process is terminated
(`panic("A database transaction was not closed!")`) iff
`!newtx.IsRollbacked && newtx.state == txPending` holds when it fires. -/
def watchdogFiresFatal (tx : Tx) : Bool :=
  !tx.isRollbacked && tx.state == .pending

/-- `pushState`: append the current state to the stack, reset to pending. -/
def Tx.pushState (tx : Tx) : Tx :=
  { tx with stateStack := tx.stateStack ++ [tx.state], state := .pending }

/-- `popState`: if the stack is empty do nothing, else move the last
element of the stack into `state`. -/
def Tx.popState (tx : Tx) : Tx :=
  if h : tx.stateStack = [] then tx
  else { tx with state := tx.stateStack.getLast h,
                 stateStack := tx.stateStack.dropLast }

/-- `(*Tx).Begin`: fail with `ErrTxRollbacked` if the sticky flag is set,
else push the current state and return the same entity.  No driver call. -/
def Tx.begin (tx : Tx) : StepResult :=
  if tx.isRollbacked then ⟨tx, [], .err .txRollbacked⟩
  else ⟨tx.pushState, [], .ok⟩

/-- `(*Tx).Commit`: state checks first; a real driver commit only when
`stateStack` is empty; on driver failure set `txErred` and surface the
error; otherwise set `txCommitted`.  `drvOk` is the driver's answer to
the real commit, if one is issued. -/
def Tx.commit (tx : Tx) (drvOk : Bool) : StepResult :=
  if tx.isRollbacked then ⟨tx, [], .err .txRollbacked⟩
  else if tx.state = .committed then ⟨tx, [], .err .alreadyCommitted⟩
  else if tx.state = .rollbacked then ⟨tx, [], .err .alreadyRolledBack⟩
  else if tx.stateStack = [] then
    if drvOk then ⟨{ tx with state := .committed }, [.commit], .ok⟩
    else ⟨{ tx with state := .erred }, [.commit], .err .commitFailed⟩
  else ⟨{ tx with state := .committed }, [], .ok⟩

/-- `(*Tx).Rollback`: state checks first; then the real driver rollback
is issued unconditionally, even in nested state; on success set
`txRollbacked` and the sticky flag. -/
def Tx.rollback (tx : Tx) (drvOk : Bool) : StepResult :=
  if tx.isRollbacked then ⟨tx, [], .err .txRollbacked⟩
  else if tx.state = .committed then ⟨tx, [], .err .cannotRollbackCommitted⟩
  else if drvOk then
    ⟨{ tx with state := .rollbacked, isRollbacked := true }, [.rollback], .ok⟩
  else ⟨{ tx with state := .erred }, [.rollback], .err .rollbackFailed⟩

/-- `(*Tx).AutoCommit`: no-op pop only when `state == txRollbacked ||
IsRollbacked`; otherwise a real driver commit is issued (regardless of
nesting depth and regardless of a committed state); on driver failure set
`txErred`, in strict mode `logger.Fatal`, else pop and surface the error;
on success set `txCommitted` and pop. -/
def Tx.autoCommit (tx : Tx) (strict : Bool) (drvOk : Bool) : StepResult :=
  if tx.state = .rollbacked ∨ tx.isRollbacked then ⟨tx.popState, [], .ok⟩
  else if drvOk then ⟨({ tx with state := .committed }).popState, [.commit], .ok⟩
  else if strict then ⟨{ tx with state := .erred }, [.commit], .fatal⟩
  else ⟨({ tx with state := .erred }).popState, [.commit], .err .autoCommitFailed⟩

/-- `(*Tx).AutoRollback`: no-op pop when `IsRollbacked || state ==
txCommitted`; otherwise a real driver rollback; on failure set `txErred`,
strict-fatal or pop-and-surface; on success set `txRollbacked`, the
sticky flag, and pop. -/
def Tx.autoRollback (tx : Tx) (strict : Bool) (drvOk : Bool) : StepResult :=
  if tx.isRollbacked ∨ tx.state = .committed then ⟨tx.popState, [], .ok⟩
  else if drvOk then
    ⟨({ tx with state := .rollbacked, isRollbacked := true }).popState,
      [.rollback], .ok⟩
  else if strict then ⟨{ tx with state := .erred }, [.rollback], .fatal⟩
  else ⟨({ tx with state := .erred }).popState, [.rollback], .err .autoRollbackFailed⟩

/-- The five operations a caller can invoke on a `Tx`. -/
inductive Act where
  | begin
  | commit
  | rollback
  | autoCommit
  | autoRollback
deriving DecidableEq, Repr

/-- One operation dispatched by name. -/
def Tx.step (tx : Tx) (strict : Bool) (a : Act) (drvOk : Bool) : StepResult :=
  match a with
  | .begin => tx.begin
  | .commit => tx.commit drvOk
  | .rollback => tx.rollback drvOk
  | .autoCommit => tx.autoCommit strict drvOk
  | .autoRollback => tx.autoRollback strict drvOk

/-- Run a sequence of operations; each element pairs the operation with
the driver's answer to the real call it issues (if any).  Accumulates all
real driver calls.  A `fatal` outcome terminates the process, so the run
stops there. -/
def Tx.run (tx : Tx) (strict : Bool) : List (Act × Bool) → Tx × List DrvOp
  | [] => (tx, [])
  | (a, ok) :: rest =>
    let r := tx.step strict a ok
    if r.out = .fatal then (r.tx, r.calls)
    else
      let rest2 := r.tx.run strict rest
      (rest2.1, r.calls ++ rest2.2)

/-- States of the entity reachable from a freshly wrapped root
transaction by any sequence of operations. -/
inductive Reachable (strict : Bool) : Tx → Prop where
  | init : Reachable strict wrapSqlxTx
  | step {tx : Tx} (a : Act) (ok : Bool) :
      Reachable strict tx → Reachable strict ((tx.step strict a ok).tx)

/-- `MustPing` of `init.go`, with the external driver abstracted as
`pingOK : attempt index → success?` and the backoff ticker's budget (the
number of ticks the exponential-backoff ticker delivers before its
channel closes) as fuel.  `some n` means the routine returned normally
after `n` ping attempts; `none` means the budget was exhausted and the
routine panicked (`"Could not ping database!"`). -/
def mustPingAux (pingOK : Nat → Bool) : Nat → Nat → Option Nat
  | _, 0 => none
  | i, fuel + 1 => if pingOK i then some (i + 1) else mustPingAux pingOK (i + 1) fuel

/-- `MustPing` started at the first attempt. -/
def mustPing (pingOK : Nat → Bool) (budget : Nat) : Option Nat :=
  mustPingAux pingOK 0 budget

/-- Modelled from the spec: the external exponential-backoff schedule of
`backoff.NewExponentialBackOff` is not part of this repository; the spec
describes it as "an exponential-backoff schedule (capped)".  The interval
before tick `n+1` grows by the multiplier 3/2 from the previous one and
is capped at `cap` (all in milliseconds). -/
def backoffIntervals (initial cap : Nat) : Nat → Nat
  | 0 => min initial cap
  | n + 1 => min cap (backoffIntervals initial cap n * 3 / 2)

/-- Iterated nested `Begin` on one entity. -/
def Tx.beginN : Tx → Nat → Tx
  | tx, 0 => tx
  | tx, k + 1 => ((tx.begin).tx).beginN k

/- Helper lemmas (shared). -/

lemma popState_eq_of_empty (tx : Tx) (h : tx.stateStack = []) :
    tx.popState = tx := by
  unfold Tx.popState
  rw [dif_pos h]

lemma popState_isRollbacked (tx : Tx) :
    tx.popState.isRollbacked = tx.isRollbacked := by
  unfold Tx.popState
  split <;> rfl

lemma popState_stateStack_length (tx : Tx) :
    tx.popState.stateStack.length = tx.stateStack.length - 1 := by
  unfold Tx.popState
  split
  · simp [*]
  · simp [List.length_dropLast]

lemma step_auto_stateStack_length (tx : Tx) (a : Act) (ok : Bool)
    (h : a = Act.autoCommit ∨ a = Act.autoRollback) :
    ((tx.step false a ok).tx).stateStack.length = tx.stateStack.length - 1 ∧
    (tx.step false a ok).out ≠ Outcome.fatal := by
  rcases h with h | h <;> subst h <;>
    · simp only [Tx.step, Tx.autoCommit, Tx.autoRollback]
      split_ifs <;> simp_all [popState_stateStack_length]

lemma run_autos_stateStack_length (acts : List (Act × Bool))
    (h : ∀ p ∈ acts, p.1 = Act.autoCommit ∨ p.1 = Act.autoRollback) (tx : Tx) :
    ((tx.run false acts).1).stateStack.length =
      tx.stateStack.length - acts.length := by
  induction acts generalizing tx with
  | nil => simp [Tx.run]
  | cons p rest ih =>
    obtain ⟨a, ok⟩ := p
    have ha := h _ (List.mem_cons_self _ _)
    have hstep := step_auto_stateStack_length tx a ok ha
    simp only [Tx.run]
    rw [if_neg hstep.2]
    simp only [List.length_cons]
    rw [ih (fun q hq => h q (List.mem_cons_of_mem _ hq)), hstep.1]
    omega

lemma beginN_fresh (k : Nat) (s : List TxState) :
    (Tx.mk false TxState.pending s).beginN k =
      Tx.mk false TxState.pending (s ++ List.replicate k TxState.pending) := by
  induction k generalizing s with
  | zero => simp [Tx.beginN]
  | succ k ih =>
    simp only [Tx.beginN, Tx.begin, Tx.pushState]
    simp only [Bool.false_eq_true, if_false]
    rw [ih (s ++ [TxState.pending])]
    simp [List.replicate_succ]

lemma rollbackInv_popState (tx : Tx)
    (h1 : tx.state = TxState.rollbacked → tx.isRollbacked = true)
    (h2 : TxState.rollbacked ∉ tx.stateStack) :
    (tx.popState.state = TxState.rollbacked → tx.popState.isRollbacked = true) ∧
    TxState.rollbacked ∉ tx.popState.stateStack := by
  unfold Tx.popState
  split
  · exact ⟨h1, h2⟩
  · constructor
    · intro hst
      exfalso
      apply h2
      rw [← hst]
      exact List.getLast_mem _
    · intro hmem
      exact h2 (List.mem_of_mem_dropLast hmem)

lemma rollbackInv_step (tx : Tx) (strict : Bool) (a : Act) (ok : Bool)
    (h1 : tx.state = TxState.rollbacked → tx.isRollbacked = true)
    (h2 : TxState.rollbacked ∉ tx.stateStack) :
    (((tx.step strict a ok).tx).state = TxState.rollbacked →
      ((tx.step strict a ok).tx).isRollbacked = true) ∧
    TxState.rollbacked ∉ ((tx.step strict a ok).tx).stateStack := by
  cases a
  case begin =>
    simp only [Tx.step, Tx.begin]
    split_ifs with hf
    · exact ⟨h1, h2⟩
    · refine ⟨by simp [Tx.pushState], ?_⟩
      simp only [Tx.pushState, List.mem_append, List.mem_singleton]
      rintro (hmem | hmem)
      · exact h2 hmem
      · rw [Bool.not_eq_true] at hf
        rw [hf] at h1
        exact absurd (h1 hmem.symm) (by simp)
  case commit =>
    simp only [Tx.step, Tx.commit]
    split_ifs <;> simp_all
  case rollback =>
    simp only [Tx.step, Tx.rollback]
    split_ifs <;> simp_all
  case autoCommit =>
    simp only [Tx.step, Tx.autoCommit]
    split_ifs
    · exact rollbackInv_popState tx h1 h2
    · exact rollbackInv_popState _ (by simp) h2
    · simp_all
    · exact rollbackInv_popState _ (by simp) h2
  case autoRollback =>
    simp only [Tx.step, Tx.autoRollback]
    split_ifs
    · exact rollbackInv_popState tx h1 h2
    · exact rollbackInv_popState _ (by simp) h2
    · simp_all
    · exact rollbackInv_popState _ (by simp) h2

lemma mustPingAux_succeeds (pingOK : Nat → Bool) (k : Nat) :
    ∀ i fuel : Nat, (∀ j, j < k → pingOK (i + j) = false) →
      pingOK (i + k) = true → k < fuel →
      mustPingAux pingOK i fuel = some (i + k + 1) := by
  induction k with
  | zero =>
    intro i fuel _ hsucc hlt
    obtain ⟨f, rfl⟩ : ∃ f, fuel = f + 1 := ⟨fuel - 1, by omega⟩
    rw [Nat.add_zero] at hsucc
    simp [mustPingAux, hsucc]
  | succ k ih =>
    intro i fuel hfail hsucc hlt
    obtain ⟨f, rfl⟩ : ∃ f, fuel = f + 1 := ⟨fuel - 1, by omega⟩
    have h0 : pingOK i = false := by
      have := hfail 0 (Nat.succ_pos k)
      rwa [Nat.add_zero] at this
    simp only [mustPingAux, h0, Bool.false_eq_true, if_false]
    have hrec := ih (i + 1) f
      (fun j hj => by
        rw [show i + 1 + j = i + (j + 1) by omega]
        exact hfail (j + 1) (by omega))
      (by rw [show i + 1 + k = i + (k + 1) by omega]; exact hsucc)
      (by omega)
    rw [hrec]
    congr 1
    omega

lemma mustPingAux_none (pingOK : Nat → Bool) (hall : ∀ j, pingOK j = false) :
    ∀ fuel i, mustPingAux pingOK i fuel = none := by
  intro fuel
  induction fuel with
  | zero => intro i; rfl
  | succ f ih => intro i; simp [mustPingAux, hall i, ih]

lemma backoffIntervals_le_cap (initial cap n : Nat) :
    backoffIntervals initial cap n ≤ cap := by
  cases n with
  | zero => exact min_le_right _ _
  | succ n => exact min_le_left _ _

lemma le_mul_three_div_two (i : Nat) : i ≤ i * 3 / 2 := by
  have h : i * 2 ≤ i * 3 := Nat.mul_le_mul_left i (by norm_num)
  calc i = i * 2 / 2 := by omega
    _ ≤ i * 3 / 2 := Nat.div_le_div_right h

/-- C1, counterexample: on the trace Begin; AutoCommit; Rollback-free
Commit (driver always succeeding, non-strict), TWO real commits reach the
underlying handle, refuting "at most one underlying call in total per
entity": the nested `AutoCommit` issues a real commit and the root
`Commit` issues another. -/
theorem C1_counterexample :
    ¬ ((wrapSqlxTx.run false
        [(Act.begin, true), (Act.autoCommit, true), (Act.commit, true)]).2.length ≤ 1) := by
  decide

/-- C1, amended: each single `Begin`/`Commit`/`Rollback`/`AutoCommit`/
`AutoRollback` call issues at most one real call to the underlying driver
handle; across a sequence of calls on one entity, however, more than one
real call can reach the handle. -/
theorem C1_amended_per_call_bound (tx : Tx) (strict : Bool) (a : Act) (ok : Bool) :
    ((tx.step strict a ok).calls).length ≤ 1 := by
  cases a <;>
    simp only [Tx.step, Tx.begin, Tx.commit, Tx.rollback, Tx.autoCommit,
      Tx.autoRollback] <;>
    split_ifs <;> simp

/-- C2, counterexample: in the scenario root T, N1 = T.Begin(),
N1.AutoCommit(), the `AutoCommit` does NOT leave the underlying handle
untouched: it issues a real driver commit. -/
theorem C2_counterexample :
    ¬ (((wrapSqlxTx.begin).tx.autoCommit false true).calls = []) := by
  decide

/-- C2, amended: in the scenario root T, N1 = T.Begin(), N1.AutoCommit()
pops the stack back to the pre-nested state (Pending, empty stack) but
issues one real underlying commit; the subsequent T.Commit() then issues
a second real underlying commit and returns no error when the driver
accepts it. -/
theorem C2_amended_trace :
    (wrapSqlxTx.begin).tx.autoCommit false true =
      ⟨⟨false, TxState.pending, []⟩, [DrvOp.commit], Outcome.ok⟩ ∧
    ((wrapSqlxTx.begin).tx.autoCommit false true).tx.commit true =
      ⟨⟨false, TxState.committed, []⟩, [DrvOp.commit], Outcome.ok⟩ := by
  decide

/-- C3: the code violates the claim at `state = Committed`.  `AutoCommit`
only short-circuits on `state == txRollbacked || IsRollbacked`; with
`state = Committed` it issues another real underlying commit instead of
the claimed no-op (contradicting its own doc comment "AutoCommit commits
a transaction IF neither Commit or Rollback were called"): first conjunct
shows the driver call, second the surfaced error on driver failure, third
that Commit-then-AutoCommit sends two real commits to the handle. -/
theorem C3_autoCommit_on_committed_hits_driver :
    ((Tx.mk false TxState.committed []).autoCommit false true).calls = [DrvOp.commit] ∧
    ((Tx.mk false TxState.committed []).autoCommit false false).out =
      Outcome.err TxErr.autoCommitFailed ∧
    (wrapSqlxTx.run false [(Act.commit, true), (Act.autoCommit, true)]).2 =
      [DrvOp.commit, DrvOp.commit] := by
  decide

/-- C4: a successful `Rollback` (or a real `AutoRollback`) sets the
sticky `IsRollbacked` flag; no operation ever clears it; and while it is
set, `Commit` and `Begin` fail immediately with `ErrTxRollbacked`,
touching neither the underlying handle nor any state. -/
theorem C4_sticky_rollback_terminal :
    (∀ (tx : Tx) (ok : Bool), (tx.rollback ok).out = Outcome.ok →
      (tx.rollback ok).tx.isRollbacked = true) ∧
    (∀ (tx : Tx) (strict ok : Bool), tx.isRollbacked = false →
      tx.state ≠ TxState.committed →
      (tx.autoRollback strict ok).out = Outcome.ok →
      (tx.autoRollback strict ok).tx.isRollbacked = true) ∧
    (∀ (tx : Tx) (strict : Bool) (a : Act) (ok : Bool),
      tx.isRollbacked = true → ((tx.step strict a ok).tx).isRollbacked = true) ∧
    (∀ tx : Tx, tx.isRollbacked = true →
      tx.begin = ⟨tx, [], Outcome.err TxErr.txRollbacked⟩) ∧
    (∀ (tx : Tx) (ok : Bool), tx.isRollbacked = true →
      tx.commit ok = ⟨tx, [], Outcome.err TxErr.txRollbacked⟩) := by
  refine ⟨?_, ?_, ?_, ?_, ?_⟩
  · intro tx ok h
    simp only [Tx.rollback] at h ⊢
    split_ifs at h ⊢
    all_goals simp_all
  · intro tx strict ok hf hc h
    simp only [Tx.autoRollback, hf, hc] at h ⊢
    split_ifs at h ⊢
    all_goals simp_all [popState_isRollbacked]
  · intro tx strict a ok h
    cases a <;>
      simp [Tx.step, Tx.begin, Tx.commit, Tx.rollback, Tx.autoCommit,
        Tx.autoRollback, h, popState_isRollbacked]
  · intro tx h
    simp [Tx.begin, h]
  · intro tx ok h
    simp [Tx.commit, h]

/-- C4, witness at concrete inputs. -/
theorem C4_sticky_rollback_terminal_witness :
    (wrapSqlxTx.rollback true).tx.isRollbacked = true ∧
    ((Tx.mk false TxState.pending []).autoRollback false true).tx.isRollbacked = true ∧
    ((Tx.mk true TxState.pending []).step false Act.commit true).tx.isRollbacked = true ∧
    (Tx.mk true TxState.rollbacked []).begin =
      ⟨Tx.mk true TxState.rollbacked [], [], Outcome.err TxErr.txRollbacked⟩ ∧
    (Tx.mk true TxState.rollbacked []).commit true =
      ⟨Tx.mk true TxState.rollbacked [], [], Outcome.err TxErr.txRollbacked⟩ :=
  ⟨C4_sticky_rollback_terminal.1 wrapSqlxTx true (by decide),
   C4_sticky_rollback_terminal.2.1 (Tx.mk false TxState.pending []) false true
     rfl (by decide) (by decide),
   C4_sticky_rollback_terminal.2.2.1 (Tx.mk true TxState.pending []) false
     Act.commit true rfl,
   C4_sticky_rollback_terminal.2.2.2.1 (Tx.mk true TxState.rollbacked []) rfl,
   C4_sticky_rollback_terminal.2.2.2.2 (Tx.mk true TxState.rollbacked []) true rfl⟩

/-- C5: on a non-sticky-rolled-back entity, `Begin` pushes the current
state, resets the state to Pending, succeeds, and issues no underlying
call; after `k` nested `Begin` calls from a fresh root the stack length
is `k`; and after the matching `k` `AutoCommit`/`AutoRollback` calls
(non-strict mode, any driver answers) the stack is empty again. -/
theorem C5_begin_nesting_bookkeeping :
    (∀ tx : Tx, tx.isRollbacked = false →
      (tx.begin).tx.state = TxState.pending ∧
      (tx.begin).tx.stateStack = tx.stateStack ++ [tx.state] ∧
      (tx.begin).calls = [] ∧ (tx.begin).out = Outcome.ok) ∧
    (∀ k : Nat, (wrapSqlxTx.beginN k).stateStack.length = k) ∧
    (∀ acts : List (Act × Bool),
      (∀ p ∈ acts, p.1 = Act.autoCommit ∨ p.1 = Act.autoRollback) →
      ((wrapSqlxTx.beginN acts.length).run false acts).1.stateStack = []) := by
  refine ⟨?_, ?_, ?_⟩
  · intro tx h
    simp [Tx.begin, h, Tx.pushState]
  · intro k
    show ((Tx.mk false TxState.pending []).beginN k).stateStack.length = k
    rw [beginN_fresh k []]
    simp
  · intro acts h
    apply List.length_eq_zero.mp
    rw [run_autos_stateStack_length acts h]
    have hlen : (wrapSqlxTx.beginN acts.length).stateStack.length = acts.length := by
      show ((Tx.mk false TxState.pending []).beginN acts.length).stateStack.length = _
      rw [beginN_fresh]
      simp
    omega

/-- C5, witness: two nested Begins then an AutoCommit and an AutoRollback
empty the stack again. -/
theorem C5_begin_nesting_bookkeeping_witness :
    ((wrapSqlxTx.begin).tx.state = TxState.pending ∧
     (wrapSqlxTx.begin).tx.stateStack = wrapSqlxTx.stateStack ++ [wrapSqlxTx.state] ∧
     (wrapSqlxTx.begin).calls = [] ∧ (wrapSqlxTx.begin).out = Outcome.ok) ∧
    (wrapSqlxTx.beginN 2).stateStack.length = 2 ∧
    ((wrapSqlxTx.beginN 2).run false
      [(Act.autoCommit, true), (Act.autoRollback, true)]).1.stateStack = [] :=
  ⟨C5_begin_nesting_bookkeeping.1 wrapSqlxTx rfl,
   C5_begin_nesting_bookkeeping.2.1 2,
   C5_begin_nesting_bookkeeping.2.2
     [(Act.autoCommit, true), (Act.autoRollback, true)] (by decide)⟩

/-- C6: a root-scope `Commit` (empty stack, flag unset, state neither
Committed nor RolledBack) whose underlying driver commit fails sets the
state to Errored, returns the underlying error, and leaves the stack
unchanged; and the state becomes Committed only when the driver commit
succeeded or the scope was nested. -/
theorem C6_root_commit_failure :
    (∀ tx : Tx, tx.isRollbacked = false → tx.state ≠ TxState.committed →
      tx.state ≠ TxState.rollbacked → tx.stateStack = [] →
      tx.commit false =
        ⟨{ tx with state := TxState.erred }, [DrvOp.commit],
          Outcome.err TxErr.commitFailed⟩) ∧
    (∀ (tx : Tx) (ok : Bool), tx.state ≠ TxState.committed →
      (tx.commit ok).tx.state = TxState.committed →
      ok = true ∨ tx.stateStack ≠ []) := by
  constructor
  · intro tx hf hc hr hstack
    simp [Tx.commit, hf, hc, hr, hstack]
  · intro tx ok hc h
    simp only [Tx.commit] at h
    split_ifs at h <;> simp_all

/-- C6, witness: the fresh root with a failing driver commit, and a
successful root commit for the second conjunct. -/
theorem C6_root_commit_failure_witness :
    wrapSqlxTx.commit false =
      ⟨{ wrapSqlxTx with state := TxState.erred }, [DrvOp.commit],
        Outcome.err TxErr.commitFailed⟩ ∧
    (true = true ∨ wrapSqlxTx.stateStack ≠ []) :=
  ⟨C6_root_commit_failure.1 wrapSqlxTx rfl (by decide) (by decide) rfl,
   C6_root_commit_failure.2 wrapSqlxTx true (by decide) (by decide)⟩

/-- C7: the leak watchdog is armed at root creation iff the strict-mode
flag is set (so in non-strict mode no check ever runs), and when it runs
it terminates the process fatally exactly when the transaction is still
Pending with the sticky rolled-back flag unset. -/
theorem C7_watchdog_strict_gate :
    (∀ strict : Bool, watchdogArmed strict = strict) ∧
    watchdogArmed false = false ∧
    (∀ tx : Tx, watchdogFiresFatal tx = true ↔
      (tx.state = TxState.pending ∧ tx.isRollbacked = false)) := by
  refine ⟨fun _ => rfl, rfl, fun tx => ?_⟩
  obtain ⟨f, s, st⟩ := tx
  cases f <;> cases s <;> simp [watchdogFiresFatal]

/-- C7, witness: armed in strict mode, and a fresh pending root makes
the watchdog check fatal. -/
theorem C7_watchdog_strict_gate_witness :
    watchdogArmed true = true ∧
    (watchdogFiresFatal wrapSqlxTx = true ↔
      (wrapSqlxTx.state = TxState.pending ∧ wrapSqlxTx.isRollbacked = false)) :=
  ⟨C7_watchdog_strict_gate.1 true, C7_watchdog_strict_gate.2.2 wrapSqlxTx⟩

/-- C8: if the ping fails on the first N attempts and succeeds on attempt
N+1, and the backoff ticker's budget allows at least N+1 ticks, `MustPing`
performs exactly N+1 ping attempts and returns normally; if every ping
fails, the budget is exhausted and the routine panics (returns `none` in
the embedding); and the spec-modelled capped exponential backoff schedule
is monotonically non-decreasing. -/
theorem C8_must_ping_backoff :
    (∀ (pingOK : Nat → Bool) (N budget : Nat),
      (∀ i, i < N → pingOK i = false) → pingOK N = true → N < budget →
      mustPing pingOK budget = some (N + 1)) ∧
    (∀ (pingOK : Nat → Bool) (budget : Nat), (∀ i, pingOK i = false) →
      mustPing pingOK budget = none) ∧
    (∀ initial cap n : Nat,
      backoffIntervals initial cap n ≤ backoffIntervals initial cap (n + 1)) := by
  refine ⟨?_, ?_, ?_⟩
  · intro pingOK N budget hfail hsucc hlt
    have := mustPingAux_succeeds pingOK N 0 budget
      (fun j hj => by simpa using hfail j hj) (by simpa using hsucc) hlt
    simpa [mustPing] using this
  · intro pingOK budget hall
    exact mustPingAux_none pingOK hall budget 0
  · intro initial cap n
    show backoffIntervals initial cap n ≤
      min cap (backoffIntervals initial cap n * 3 / 2)
    exact le_min (backoffIntervals_le_cap initial cap n) (le_mul_three_div_two _)

/-- C8, witness: a ping that always succeeds returns after one attempt; a
ping that never succeeds exhausts the budget; a concrete backoff step is
non-decreasing. -/
theorem C8_must_ping_backoff_witness :
    mustPing (fun _ => true) 1 = some (0 + 1) ∧
    mustPing (fun _ => false) 5 = none ∧
    backoffIntervals 500 4000 5 ≤ backoffIntervals 500 4000 6 :=
  ⟨C8_must_ping_backoff.1 (fun _ => true) 0 1
     (fun i hi => absurd hi (Nat.not_lt_zero i)) rfl (by decide),
   C8_must_ping_backoff.2.1 (fun _ => false) 5 (fun _ => rfl),
   C8_must_ping_backoff.2.2 500 4000 5⟩

/-- C9: in every state reachable from a freshly wrapped root transaction,
if the current state is RolledBack then the sticky flag is set, and the
RolledBack state never sits on the state stack. -/
theorem C9_reachable_rollback_invariant (strict : Bool) (tx : Tx)
    (h : Reachable strict tx) :
    (tx.state = TxState.rollbacked → tx.isRollbacked = true) ∧
    TxState.rollbacked ∉ tx.stateStack := by
  induction h with
  | init => exact ⟨by decide, by decide⟩
  | step a ok _ ih => exact rollbackInv_step _ strict a ok ih.1 ih.2

/-- C9, witness at the initial reachable state. -/
theorem C9_reachable_rollback_invariant_witness :
    (wrapSqlxTx.state = TxState.rollbacked → wrapSqlxTx.isRollbacked = true) ∧
    TxState.rollbacked ∉ wrapSqlxTx.stateStack :=
  C9_reachable_rollback_invariant false wrapSqlxTx Reachable.init

/-- C10: `popState` on an empty stack is a safe no-op, and a root-scope
(empty-stack) `AutoCommit`/`AutoRollback` leaves the current state exactly
as the operation set it: Committed or RolledBack on driver success,
Errored on (non-strict) driver failure. -/
theorem C10_pop_empty_root_auto :
    (∀ tx : Tx, tx.stateStack = [] → tx.popState = tx) ∧
    (∀ (tx : Tx) (strict : Bool), tx.stateStack = [] →
      tx.state ≠ TxState.rollbacked → tx.isRollbacked = false →
      (tx.autoCommit strict true).tx.state = TxState.committed) ∧
    (∀ tx : Tx, tx.stateStack = [] → tx.state ≠ TxState.rollbacked →
      tx.isRollbacked = false →
      (tx.autoCommit false false).tx.state = TxState.erred) ∧
    (∀ (tx : Tx) (strict : Bool), tx.stateStack = [] →
      tx.isRollbacked = false → tx.state ≠ TxState.committed →
      (tx.autoRollback strict true).tx.state = TxState.rollbacked) ∧
    (∀ tx : Tx, tx.stateStack = [] → tx.isRollbacked = false →
      tx.state ≠ TxState.committed →
      (tx.autoRollback false false).tx.state = TxState.erred) := by
  refine ⟨popState_eq_of_empty, ?_, ?_, ?_, ?_⟩
  · intro tx strict hstack hr hf
    simp [Tx.autoCommit, hr, hf, hstack, popState_eq_of_empty]
  · intro tx hstack hr hf
    simp [Tx.autoCommit, hr, hf, hstack, popState_eq_of_empty]
  · intro tx strict hstack hf hc
    simp [Tx.autoRollback, hf, hc, hstack, popState_eq_of_empty]
  · intro tx hstack hf hc
    simp [Tx.autoRollback, hf, hc, hstack, popState_eq_of_empty]

/-- C10, witness at the fresh root. -/
theorem C10_pop_empty_root_auto_witness :
    wrapSqlxTx.popState = wrapSqlxTx ∧
    (wrapSqlxTx.autoCommit false true).tx.state = TxState.committed ∧
    (wrapSqlxTx.autoCommit false false).tx.state = TxState.erred ∧
    (wrapSqlxTx.autoRollback false true).tx.state = TxState.rollbacked ∧
    (wrapSqlxTx.autoRollback false false).tx.state = TxState.erred :=
  ⟨C10_pop_empty_root_auto.1 wrapSqlxTx rfl,
   C10_pop_empty_root_auto.2.1 wrapSqlxTx false rfl (by decide) rfl,
   C10_pop_empty_root_auto.2.2.1 wrapSqlxTx rfl (by decide) rfl,
   C10_pop_empty_root_auto.2.2.2.1 wrapSqlxTx false rfl rfl (by decide),
   C10_pop_empty_root_auto.2.2.2.2 wrapSqlxTx rfl rfl (by decide)⟩

end Dat
